import Mathlib

/-!
Shallow embedding of `src/src/App.tsx` of the AI New Grad Job Finder
single-page application.

The component keeps six pieces of React state (`user`, `loading`,
`searchQuery`, `jobs`, `searchLoading`, `savedJobs`) and performs four
kinds of asynchronous work: loading saved bookmarks (remote list with a
localStorage fallback), an initial AI-generation call, an AI-generation
call per search submission, and a bookmark toggle that optimistically
writes to local state and localStorage while making a best-effort remote
call.

External effects are made explicit parameters:
  * the outcome of each remote call is an `Except Unit` / `Bool` argument;
  * `localStorage` is an association list from keys to stored values; the
    values written by the app are always `JSON.stringify` of a list of
    job-id strings and the values read are immediately `JSON.parse`d, so
    the JSON layer (a browser builtin, not code of this repository) is
    modelled as the identity round-trip: stored values are kept as
    `List String` directly;
  * the remote `savedJobs` collection is a list of records, with
    `create` appending a record and `delete id` removing the records
    whose `id` field equals the given identifier;
  * `Date.now()` is a `Nat` argument, `new Date().toISOString()` a
    `String` argument.
-/

/-- The `Job` interface of `App.tsx` (lines 9-21).  The source field
`type` is renamed `jobType` because `type` is a Lean keyword. -/
structure Job where
  id : String
  title : String
  company : String
  location : String
  salary : String
  jobType : String
  description : String
  requirements : List String
  posted : String
  remote : Bool
  experience_level : String
  deriving DecidableEq

/-- Component state of the `App` component (lines 24-29).  The user is
modelled by an optional user id. -/
structure AppState where
  user : Option String
  loading : Bool
  searchQuery : String
  jobs : List Job
  searchLoading : Bool
  savedJobs : List String
  deriving DecidableEq

/-- Browser localStorage, restricted to the values this app stores:
each key maps to the JSON-decoded list of job ids. -/
abbrev LocalStorage := List (String × List String)

/-- The `localStorage.setItem` builtin: replaces any value stored at
`key` with `value`. -/
def setItem (ls : LocalStorage) (key : String) (value : List String) :
    LocalStorage :=
  (key, value) :: ls.filter (fun p => p.1 != key)

/-- The `localStorage.getItem` builtin: the value stored at `key`, if
any. -/
def getItem (ls : LocalStorage) (key : String) : Option (List String) :=
  (ls.find? (fun p => p.1 == key)).map (fun p => p.2)

/-- One record of the remote `savedJobs` collection, as created at
`App.tsx` lines 157-162. -/
structure SavedJobRecord where
  id : String
  userId : String
  jobId : String
  createdAt : String
  deriving DecidableEq

/-- The remote `savedJobs` collection. -/
abbrev RemoteDb := List SavedJobRecord

/-- The `blink.db.savedJobs.create` call: the record joins the
collection. -/
def dbCreate (db : RemoteDb) (rec : SavedJobRecord) : RemoteDb :=
  db ++ [rec]

/-- The `blink.db.savedJobs.delete` call: removes the records whose
primary `id` equals the given identifier. -/
def dbDelete (db : RemoteDb) (recId : String) : RemoteDb :=
  db.filter (fun r => r.id != recId)

/-- The localStorage key used for a user's saved jobs: `savedJobs_<userId>`
(lines 52, 153, 168). -/
def savedJobsKey (userId : String) : String :=
  "savedJobs_" ++ userId

/-- The loadSavedJobs closure (lines 42-57): list the user's remote
saved-job records and keep their `jobId`s; on a remote failure read the
local fallback key, and if it is absent leave the saved set unchanged. -/
def loadSavedJobs (userId : String)
    (remote : Except Unit (List SavedJobRecord)) (ls : LocalStorage)
    (savedJobs : List String) : List String :=
  match remote with
  | Except.ok saved => saved.map (fun job => job.jobId)
  | Except.error _ =>
      match getItem ls (savedJobsKey userId) with
      | some localSaved => localSaved
      | none => savedJobs

/-- The JavaScript `String.prototype.trim` builtin used in the guard at
line 103, modelled on lists of characters: drop whitespace from both
ends.  It is a browser builtin, not code of this repository. -/
def jsTrim (s : String) : String :=
  String.mk
    (((s.data.dropWhile Char.isWhitespace).reverse.dropWhile
      Char.isWhitespace).reverse)

/-- A JSON-schema value of the shape passed to `blink.ai.generateObject`:
the app only uses object, array, string and boolean nodes. -/
inductive JsonSchema where
  | obj (properties : List (String × JsonSchema)) : JsonSchema
  | arr (items : JsonSchema) : JsonSchema
  | str : JsonSchema
  | boolean : JsonSchema

/-- A request to `blink.ai.generateObject`. -/
structure GenerateObjectRequest where
  prompt : String
  schema : JsonSchema

/-- The schema literal of the initial load (lines 65-88). -/
def initialLoadSchema : JsonSchema :=
  JsonSchema.obj [("jobs", JsonSchema.arr (JsonSchema.obj
    [("id", JsonSchema.str), ("title", JsonSchema.str),
     ("company", JsonSchema.str), ("location", JsonSchema.str),
     ("salary", JsonSchema.str), ("type", JsonSchema.str),
     ("description", JsonSchema.str),
     ("requirements", JsonSchema.arr JsonSchema.str),
     ("posted", JsonSchema.str), ("remote", JsonSchema.boolean),
     ("experience_level", JsonSchema.str)]))]

/-- The schema literal of the search handler (lines 109-132); the source
repeats the literal verbatim. -/
def searchSchema : JsonSchema :=
  JsonSchema.obj [("jobs", JsonSchema.arr (JsonSchema.obj
    [("id", JsonSchema.str), ("title", JsonSchema.str),
     ("company", JsonSchema.str), ("location", JsonSchema.str),
     ("salary", JsonSchema.str), ("type", JsonSchema.str),
     ("description", JsonSchema.str),
     ("requirements", JsonSchema.arr JsonSchema.str),
     ("posted", JsonSchema.str), ("remote", JsonSchema.boolean),
     ("experience_level", JsonSchema.str)]))]

/-- The AI-generation request issued by `loadInitialJobs` (lines 63-89):
a fixed prompt, independent of any component state. -/
def loadInitialJobsCall : GenerateObjectRequest :=
  { prompt := "Generate 8 realistic entry-level job postings for new graduates in tech, marketing, finance, and other fields. Include diverse companies and locations.",
    schema := initialLoadSchema }

/-- The AI-generation request issued by `handleSearch` past its guard
(lines 107-133), parameterized by the query text. -/
def searchCall (query : String) : GenerateObjectRequest :=
  { prompt := "Find entry-level jobs for new graduates related to: \"" ++
      query ++ "\". Generate 6 realistic job postings that match this search query.",
    schema := searchSchema }

/-- The loadInitialJobs closure (lines 59-96): `searchLoading` flips to
`true`, the AI call resolves, on success `jobs` becomes the response's
`jobs` array, on failure it is left alone, and `searchLoading` is reset
in the `finally` block.  The resulting state after the invocation
completes. -/
def loadInitialJobs (st : AppState) (result : Except Unit (List Job)) :
    AppState :=
  match result with
  | Except.ok newJobs =>
      { st with jobs := newJobs, searchLoading := false }
  | Except.error _ =>
      { st with searchLoading := false }

/-- One observable step of a search invocation past the guard:
`setSearchLoading(true)` at issuance, then, at completion,
`setJobs` on success and `setSearchLoading(false)` in the `finally`
block (lines 105-139). -/
inductive SearchEvent where
  | start : SearchEvent
  | complete (result : Except Unit (List Job)) : SearchEvent

/-- State transition of a single search event. -/
def stepSearch (st : AppState) : SearchEvent → AppState
  | SearchEvent.start => { st with searchLoading := true }
  | SearchEvent.complete (Except.ok newJobs) =>
      { st with jobs := newJobs, searchLoading := false }
  | SearchEvent.complete (Except.error _) =>
      { st with searchLoading := false }

/-- The handleSearch handler (lines 102-140) run to completion with no
interleaved work: if the trimmed query is empty it returns before doing
anything, otherwise the start and completion events apply in order. -/
def handleSearch (st : AppState) (result : Except Unit (List Job)) :
    AppState :=
  if jsTrim st.searchQuery = "" then st
  else stepSearch (stepSearch st SearchEvent.start)
    (SearchEvent.complete result)

/-- The AI-generation requests a single handleSearch invocation issues:
none when the guard at line 103 fires, exactly one otherwise. -/
def handleSearchCalls (st : AppState) : List GenerateObjectRequest :=
  if jsTrim st.searchQuery = "" then []
  else [searchCall st.searchQuery]

/-- Result of a bookmark toggle: the new in-memory saved set, the new
localStorage contents and the new remote collection. -/
structure ToggleResult where
  savedJobs : List String
  localStorage : LocalStorage
  db : RemoteDb
  deriving DecidableEq

/-- The record passed to `blink.db.savedJobs.create` at lines 157-162:
its primary id is `saved_<Date.now()>`, distinct from the job id it
bookmarks. -/
def createdRecord (userId jobId : String) (now : Nat) (nowIso : String) :
    SavedJobRecord :=
  { id := "saved_" ++ toString now, userId := userId, jobId := jobId,
    createdAt := nowIso }

/-- The toggleSaveJob handler (lines 142-173).  `remoteOk` tells whether
the best-effort remote call (delete or create) succeeds; its failure is
swallowed by the inner `catch`.  `now` is `Date.now()` and `nowIso` is
`new Date().toISOString()` at the time of the call. -/
def toggleSaveJob (userId jobId : String) (savedJobs : List String)
    (ls : LocalStorage) (db : RemoteDb) (remoteOk : Bool) (now : Nat)
    (nowIso : String) : ToggleResult :=
  if savedJobs.contains jobId then
    let db2 := if remoteOk then dbDelete db jobId else db
    let newSavedJobs := savedJobs.filter (fun id => id != jobId)
    { savedJobs := newSavedJobs,
      localStorage := setItem ls (savedJobsKey userId) newSavedJobs,
      db := db2 }
  else
    let db2 := if remoteOk then
        dbCreate db (createdRecord userId jobId now nowIso)
      else db
    let newSavedJobs := savedJobs ++ [jobId]
    { savedJobs := newSavedJobs,
      localStorage := setItem ls (savedJobsKey userId) newSavedJobs,
      db := db2 }

/-! Helper lemmas. -/

lemma getItem_setItem_same (ls : LocalStorage) (key : String)
    (value : List String) : getItem (setItem ls key value) key = some value := by
  simp [getItem, setItem]

lemma filter_bne_of_not_mem (l : List String) (a : String) (h : a ∉ l) :
    l.filter (fun x => x != a) = l := by
  apply List.filter_eq_self.mpr
  intro b hb
  exact bne_iff_ne.mpr (fun e => h (e ▸ hb))

lemma filter_bne_append (l : List String) (a : String) (h : a ∉ l) :
    (l ++ [a]).filter (fun x => x != a) = l := by
  rw [List.filter_append, filter_bne_of_not_mem l a h]
  simp

/-! Claim theorems. -/

/-- C1, counterexample: two successive toggles do not restore the local
fallback entry to its original value when no entry existed before the
first toggle — starting from an empty saved set and empty localStorage,
after save-then-unsave of job "j" the entry under `savedJobs_u` is
`some []` while it originally was `none` (the saved set itself is
restored). -/
theorem c1_round_trip_counterexample :
    (toggleSaveJob "u" "j"
      (toggleSaveJob "u" "j" [] [] [] true 0 "t1").savedJobs
      (toggleSaveJob "u" "j" [] [] [] true 0 "t1").localStorage
      (toggleSaveJob "u" "j" [] [] [] true 0 "t1").db true 1 "t2").savedJobs
        = [] ∧
    getItem (toggleSaveJob "u" "j"
      (toggleSaveJob "u" "j" [] [] [] true 0 "t1").savedJobs
      (toggleSaveJob "u" "j" [] [] [] true 0 "t1").localStorage
      (toggleSaveJob "u" "j" [] [] [] true 0 "t1").db true 1
        "t2").localStorage (savedJobsKey "u") = some [] ∧
    getItem ([] : LocalStorage) (savedJobsKey "u") ≠ some [] := by
  decide

/-- C1, amended: toggling a job id not in the saved set adds it to both
the in-memory saved set and the local fallback entry under
`savedJobs_<userId>`; toggling again removes it from both, restoring the
saved set to its original value and leaving the local fallback entry
holding exactly the original saved set (hence restoring the entry
whenever it already held that value). -/
theorem c1_toggle_round_trip (userId jobId : String)
    (savedJobs : List String) (ls : LocalStorage) (db : RemoteDb)
    (ok1 ok2 : Bool) (n1 n2 : Nat) (iso1 iso2 : String)
    (hm : jobId ∉ savedJobs) :
    let r1 := toggleSaveJob userId jobId savedJobs ls db ok1 n1 iso1
    let r2 := toggleSaveJob userId jobId r1.savedJobs r1.localStorage
      r1.db ok2 n2 iso2
    r1.savedJobs = savedJobs ++ [jobId] ∧
    getItem r1.localStorage (savedJobsKey userId) =
      some (savedJobs ++ [jobId]) ∧
    r2.savedJobs = savedJobs ∧
    getItem r2.localStorage (savedJobsKey userId) = some savedJobs := by
  simp [toggleSaveJob, hm, getItem_setItem_same,
    filter_bne_append savedJobs jobId hm]

/-- Witness for the amended C1 theorem at a concrete input. -/
theorem c1_toggle_round_trip_witness :
    "j" ∉ (["a"] : List String) ∧
    (let r1 := toggleSaveJob "u" "j" ["a"] [] [] true 0 "t1"
     let r2 := toggleSaveJob "u" "j" r1.savedJobs r1.localStorage r1.db
       true 1 "t2"
     r1.savedJobs = ["a"] ++ ["j"] ∧
     getItem r1.localStorage (savedJobsKey "u") = some (["a"] ++ ["j"]) ∧
     r2.savedJobs = ["a"] ∧
     getItem r2.localStorage (savedJobsKey "u") = some ["a"]) :=
  ⟨by decide,
   c1_toggle_round_trip "u" "j" ["a"] [] [] true true 0 1 "t1" "t2"
     (by decide)⟩

/-- C2: the in-memory saved set and the local fallback storage produced
by a bookmark toggle do not depend on whether the best-effort remote
call succeeded — they equal the outcome of the successful-remote run. -/
theorem c2_remote_failure_swallowed (userId jobId : String)
    (savedJobs : List String) (ls : LocalStorage) (db : RemoteDb)
    (remoteOk : Bool) (now : Nat) (nowIso : String) :
    (toggleSaveJob userId jobId savedJobs ls db remoteOk now
      nowIso).savedJobs =
      (toggleSaveJob userId jobId savedJobs ls db true now
        nowIso).savedJobs ∧
    (toggleSaveJob userId jobId savedJobs ls db remoteOk now
      nowIso).localStorage =
      (toggleSaveJob userId jobId savedJobs ls db true now
        nowIso).localStorage := by
  unfold toggleSaveJob
  split <;> simp

/-- C3: a successful initial load sets the displayed job list to the
jobs array of the AI response, so the displayed count equals that
array's length. -/
theorem c3_initial_load_sets_jobs (st : AppState) (newJobs : List Job) :
    (loadInitialJobs st (Except.ok newJobs)).jobs = newJobs ∧
    (loadInitialJobs st (Except.ok newJobs)).jobs.length =
      newJobs.length := by
  simp [loadInitialJobs]

/-- C4: when the trimmed search query is empty, submitting the search
issues no AI-generation request and leaves the entire component state
unchanged. -/
theorem c4_blank_query_noop (st : AppState)
    (result : Except Unit (List Job)) (h : jsTrim st.searchQuery = "") :
    handleSearch st result = st ∧ handleSearchCalls st = [] := by
  simp [handleSearch, handleSearchCalls, h]

/-- Witness for C4 at a whitespace-only query. -/
theorem c4_blank_query_noop_witness :
    jsTrim "   " = "" ∧
    (handleSearch
        { user := some "u", loading := false, searchQuery := "   ",
          jobs := [], searchLoading := false, savedJobs := [] }
        (Except.error ()) =
      { user := some "u", loading := false, searchQuery := "   ",
        jobs := [], searchLoading := false, savedJobs := [] } ∧
     handleSearchCalls
        { user := some "u", loading := false, searchQuery := "   ",
          jobs := [], searchLoading := false, savedJobs := [] } = []) :=
  ⟨by decide,
   c4_blank_query_noop
     { user := some "u", loading := false, searchQuery := "   ",
       jobs := [], searchLoading := false, savedJobs := [] }
     (Except.error ()) (by decide)⟩

/-- C5: when the AI-generation call fails, the initial load leaves the
job list unchanged and ends with the search-loading flag false, and so
does a search invocation that actually issued a call (non-blank
query). -/
theorem c5_failure_preserves_jobs (st : AppState) :
    (loadInitialJobs st (Except.error ())).jobs = st.jobs ∧
    (loadInitialJobs st (Except.error ())).searchLoading = false ∧
    (jsTrim st.searchQuery ≠ "" →
      (handleSearch st (Except.error ())).jobs = st.jobs ∧
      (handleSearch st (Except.error ())).searchLoading = false) := by
  refine ⟨by simp [loadInitialJobs], by simp [loadInitialJobs],
    fun h => ?_⟩
  simp [handleSearch, h, stepSearch]

/-- Witness for C5 at a concrete state with a stale job list. -/
theorem c5_failure_preserves_jobs_witness :
    (loadInitialJobs
        { user := some "u", loading := false, searchQuery := "ml",
          jobs := [], searchLoading := true, savedJobs := [] }
        (Except.error ())).jobs =
      ({ user := some "u", loading := false, searchQuery := "ml",
         jobs := [], searchLoading := true,
         savedJobs := [] } : AppState).jobs ∧
    (loadInitialJobs
        { user := some "u", loading := false, searchQuery := "ml",
          jobs := [], searchLoading := true, savedJobs := [] }
        (Except.error ())).searchLoading = false ∧
    ((handleSearch
        { user := some "u", loading := false, searchQuery := "ml",
          jobs := [], searchLoading := true, savedJobs := [] }
        (Except.error ())).jobs =
      ({ user := some "u", loading := false, searchQuery := "ml",
         jobs := [], searchLoading := true,
         savedJobs := [] } : AppState).jobs ∧
     (handleSearch
        { user := some "u", loading := false, searchQuery := "ml",
          jobs := [], searchLoading := true, savedJobs := [] }
        (Except.error ())).searchLoading = false) :=
  ⟨(c5_failure_preserves_jobs _).1, (c5_failure_preserves_jobs _).2.1,
   (c5_failure_preserves_jobs
     { user := some "u", loading := false, searchQuery := "ml",
       jobs := [], searchLoading := true, savedJobs := [] }).2.2
     (by decide)⟩

/-- C6: when the remote list of saved-job associations fails, the saved
set becomes the JSON-decoded list stored under `savedJobs_<userId>` if
that entry exists, and is left unchanged if it does not. -/
theorem c6_saved_jobs_fallback (userId : String) (ls : LocalStorage)
    (savedJobs : List String) :
    (∀ localSaved, getItem ls (savedJobsKey userId) = some localSaved →
      loadSavedJobs userId (Except.error ()) ls savedJobs = localSaved) ∧
    (getItem ls (savedJobsKey userId) = none →
      loadSavedJobs userId (Except.error ()) ls savedJobs = savedJobs) := by
  constructor
  · intro localSaved hl
    simp [loadSavedJobs, hl]
  · intro hn
    simp [loadSavedJobs, hn]

/-- Witness for C6: a populated fallback entry is adopted; a missing one
leaves the saved set alone. -/
theorem c6_saved_jobs_fallback_witness :
    loadSavedJobs "u" (Except.error ())
      [(savedJobsKey "u", ["a", "b"])] ["z"] = ["a", "b"] ∧
    loadSavedJobs "u" (Except.error ()) [] ["z"] = ["z"] :=
  ⟨(c6_saved_jobs_fallback "u" [(savedJobsKey "u", ["a", "b"])] ["z"]).1
      ["a", "b"] (by decide),
   (c6_saved_jobs_fallback "u" [] ["z"]).2 (by decide)⟩

/-- C7: the initial load issues a fixed, query-independent prompt
requesting 8 postings; every search submission issues a prompt
parameterized by the query text requesting 6 postings; both requests
carry the same JobPosting schema. -/
theorem c7_prompts_and_schema (q : String) (st : AppState)
    (h : jsTrim st.searchQuery ≠ "") :
    loadInitialJobsCall.prompt = "Generate 8 realistic entry-level job postings for new graduates in tech, marketing, finance, and other fields. Include diverse companies and locations." ∧
    (searchCall q).prompt = "Find entry-level jobs for new graduates related to: \"" ++ q ++ "\". Generate 6 realistic job postings that match this search query." ∧
    (searchCall q).schema = loadInitialJobsCall.schema ∧
    handleSearchCalls st = [searchCall st.searchQuery] := by
  refine ⟨rfl, rfl, rfl, ?_⟩
  simp [handleSearchCalls, h]

/-- Witness for C7 at the query "ml". -/
theorem c7_prompts_and_schema_witness :
    loadInitialJobsCall.prompt = "Generate 8 realistic entry-level job postings for new graduates in tech, marketing, finance, and other fields. Include diverse companies and locations." ∧
    (searchCall "ml").prompt = "Find entry-level jobs for new graduates related to: \"" ++ "ml" ++ "\". Generate 6 realistic job postings that match this search query." ∧
    (searchCall "ml").schema = loadInitialJobsCall.schema ∧
    handleSearchCalls
      { user := some "u", loading := false, searchQuery := "ml",
        jobs := [], searchLoading := false, savedJobs := [] } =
      [searchCall "ml"] :=
  c7_prompts_and_schema "ml"
    { user := some "u", loading := false, searchQuery := "ml",
      jobs := [], searchLoading := false, savedJobs := [] }
    (by decide)

/-- C8: over any sequence of search events, the job list ends up equal
to the response of whichever successful completion applies last,
whatever starts and earlier completions preceded it; issuing a search
(the start event) never touches the job list, so no guard stops an
earlier-issued request from overwriting a later one. -/
theorem c8_last_completion_wins (st : AppState)
    (events : List SearchEvent) (b : List Job) :
    (List.foldl stepSearch st
      (events ++ [SearchEvent.complete (Except.ok b)])).jobs = b ∧
    ∀ s : AppState, (stepSearch s SearchEvent.start).jobs = s.jobs := by
  constructor
  · simp [List.foldl_append, stepSearch]
  · intro s
    simp [stepSearch]

/-- C9: a save-then-unsave of a job id (both remote calls succeeding)
creates a remote record under id `saved_<timestamp>` and then deletes by
the job id itself, so as long as the job id is not literally that
`saved_<timestamp>` string, the created record survives the delete. -/
theorem c9_delete_misses_created_record (userId jobId : String)
    (savedJobs : List String) (ls : LocalStorage) (db : RemoteDb)
    (n1 n2 : Nat) (iso1 iso2 : String) (hm : jobId ∉ savedJobs)
    (hid : jobId ≠ "saved_" ++ toString n1) :
    let r1 := toggleSaveJob userId jobId savedJobs ls db true n1 iso1
    let r2 := toggleSaveJob userId jobId r1.savedJobs r1.localStorage
      r1.db true n2 iso2
    createdRecord userId jobId n1 iso1 ∈ r1.db ∧
    r2.db = dbDelete r1.db jobId ∧
    createdRecord userId jobId n1 iso1 ∈ r2.db := by
  have hne : ¬("saved_" ++ toString n1) = jobId := fun e => hid e.symm
  simp [toggleSaveJob, hm, dbCreate, dbDelete, createdRecord,
    List.mem_filter, bne_iff_ne, hne]

/-- Witness for C9 at a concrete save-then-unsave. -/
theorem c9_delete_misses_created_record_witness :
    (let r1 := toggleSaveJob "u" "j" [] [] [] true 0 "t1"
     let r2 := toggleSaveJob "u" "j" r1.savedJobs r1.localStorage r1.db
       true 1 "t2"
     createdRecord "u" "j" 0 "t1" ∈ r1.db ∧
     r2.db = dbDelete r1.db "j" ∧
     createdRecord "u" "j" 0 "t1" ∈ r2.db) :=
  c9_delete_misses_created_record "u" "j" [] [] [] 0 1 "t1" "t2"
    (by decide) (by decide)

/-- C10: a bookmark toggle preserves duplicate-freedom of the in-memory
saved set: removal filters out every occurrence of the id, and addition
only happens when the membership test failed. -/
theorem c10_saved_set_nodup (userId jobId : String)
    (savedJobs : List String) (ls : LocalStorage) (db : RemoteDb)
    (remoteOk : Bool) (now : Nat) (nowIso : String)
    (h : savedJobs.Nodup) :
    (toggleSaveJob userId jobId savedJobs ls db remoteOk now
      nowIso).savedJobs.Nodup := by
  by_cases hm : jobId ∈ savedJobs
  · simp [toggleSaveJob, hm]
    exact h.filter _
  · simp [toggleSaveJob, hm, List.nodup_append, h]

/-- Witness for C10 at a concrete duplicate-free saved set. -/
theorem c10_saved_set_nodup_witness :
    (toggleSaveJob "u" "j" ["a"] [] [] true 0 "t").savedJobs.Nodup :=
  c10_saved_set_nodup "u" "j" ["a"] [] [] true 0 "t" (by decide)
